import Mathlib

/-!
Verification model of the agent session orchestrator
(`src/app/api/agent/route.ts`).

The route keeps a module-level `agentSessions` map from session id to
session state, resolves/creates a session per POST request with a
forced-stop escalation when the session is already submitting, relays the
engine's update stream to a server-sent-events sink while folding the
events into a durable task record, checkpoints that record to the store,
and supervises the stream with a heartbeat that force-kills hung streams.

Everything below is a shallow embedding of that file: pure data for the
records, explicit state passing for the mutable session/stream state, and
lists of emitted wire events / store writes in place of the two output
channels.
-/

namespace AgentRoute

/-! ## Constants lifted from the source -/

/-- `SESSION_TIMEOUT_MS` (route.ts line 24): 30 minutes. -/
def SESSION_TIMEOUT_MS : Nat := 30 * 60 * 1000

/-- The settle delay after a forced stop (route.ts line 178): 100 ms. -/
def FORCE_STOP_DELAY_MS : Nat := 100

/-- Hard stream timeout (route.ts line 453): 10 minutes. -/
def STREAM_TIMEOUT_MS : Nat := 10 * 60 * 1000

/-- Heartbeat period (route.ts line 485): every 5 seconds. -/
def HEARTBEAT_INTERVAL_MS : Nat := 5000

/-- Inactivity warning threshold (route.ts line 460): 60 seconds. -/
def WARN_THRESHOLD_MS : Nat := 60000

/-- Inactivity auto-kill threshold (route.ts line 466): 5 minutes. -/
def KILL_THRESHOLD_MS : Nat := 300000

/-- Error text pushed on a forced stop (route.ts lines 159-162). -/
def interruptedMessage : String := "Submission interrupted - new request received"

/-- Error text used by the heartbeat auto-kill (route.ts line 483). -/
def hungMessage : String := "Agent hung for 5 minutes with no updates. Task cancelled."

/-! ## Event model

`UpdateEvent` is the tagged union produced by the engine (the `update`
objects iterated at route.ts line 488).  Optional fields of the JS
objects become `Option`; string fields that the code tests for
truthiness are plain `String`s compared against `""`. -/

/-- `toolCall.result` — `{status, value?, error?}`. -/
structure ToolResult where
  status : String
  value : Option String
  error : Option String
deriving Repr, DecidableEq

/-- The `toolCall` payload of a tool-call event: `{type, args, result?}`. -/
structure ToolCallInfo where
  tcType : String
  args : String
  result : Option ToolResult
deriving Repr, DecidableEq

/-- Engine update events (the `update.type` tags handled by the relay). -/
inductive UpdateEvent where
  | thinkingDelta (text : String)
  | textDelta (text : String)
  | thinkingCompleted (durationMs : Nat)
  | toolCallStarted (callId : String) (toolCall : Option ToolCallInfo)
  | toolCallCompleted (callId : String) (toolCall : Option ToolCallInfo)
  | summaryEv (summary : String)
  | tokenDelta (tokens : Nat)
  | errorEv (text : String)
  | doneEv
  | sessionEv (sessionId : String)
deriving Repr, DecidableEq

/-- Wire events pushed on the SSE sink.  `relayed u` is the
`JSON.stringify(update)` pass-through (route.ts line 628);
`serializationError` is the substitute event of line 634; `errorEv` is
an error enqueued by `sendError` or a forced stop; `doneEv` is the
synthetic terminal event. -/
inductive WireEvent where
  | sessionEv (sessionId : String)
  | relayed (u : UpdateEvent)
  | serializationError
  | errorEv (text : String)
  | doneEv
deriving Repr, DecidableEq

/-! ## Durable records (`@/lib/types`) -/

/-- A stored tool-call record: `{type, args, result?, startTime, endTime?}`. -/
structure ToolCallRecord where
  tcType : String
  args : String
  result : Option ToolResult
  startTime : Nat
  endTime : Option Nat
deriving Repr, DecidableEq

/-- Message metadata.  `toolCalls` is a JS object keyed by `callId`,
modelled as an insertion-ordered association list. -/
structure MessageMetadata where
  thinking : String
  toolCalls : List (String × ToolCallRecord)
  summaries : List String
  lastUpdateTime : Nat
deriving Repr, DecidableEq

/-- A chat message of the durable task record. -/
structure ChatMessage where
  id : String
  role : String
  content : String
  createdAt : Nat
  isStreaming : Bool
  metadata : MessageMetadata
deriving Repr, DecidableEq

inductive TaskStatus where
  | pending
  | running
  | completed
  | failed
deriving Repr, DecidableEq

/-- The durable task record persisted through `dbOperations.updateTask`. -/
structure AgentTask where
  id : String
  status : TaskStatus
  error : Option String
  messages : List ChatMessage
  tokenCount : Nat
  lastActivityTime : Nat
deriving Repr, DecidableEq

/-! ### JS-object semantics for the `toolCalls` map -/

/-- `toolCalls[callId] = v`: overwrite in place if the key exists,
otherwise append (JS object property assignment). -/
def setTC (m : List (String × ToolCallRecord)) (k : String) (v : ToolCallRecord) :
    List (String × ToolCallRecord) :=
  match m with
  | [] => [(k, v)]
  | (k', v') :: rest => if k' = k then (k, v) :: rest else (k', v') :: setTC rest k v

/-- `toolCalls?.[callId]`: first binding for the key, if any. -/
def getTC (m : List (String × ToolCallRecord)) (k : String) : Option ToolCallRecord :=
  match m with
  | [] => none
  | (k', v') :: rest => if k' = k then some v' else getTC rest k

theorem getTC_setTC_self (m : List (String × ToolCallRecord)) (k : String) (v : ToolCallRecord) :
    getTC (setTC m k v) k = some v := by
  induction m with
  | nil => simp [setTC, getTC]
  | cons hd tl ih =>
    obtain ⟨k', v'⟩ := hd
    by_cases h : k' = k
    · simp [setTC, getTC, h]
    · simp [setTC, getTC, h, ih]

/-! ## Session registry

`agentSessions` is a JS `Map` from session id to session state, modelled
extensionally.  The engine handle (`agent: CursorAgent`) is identified
by an opaque `Nat`; controller and submission presence are the facts the
code tests (`session.currentController`,
`typeof session.currentSubmission.cancel === 'function'`). -/

/-- One entry of `agentSessions`. -/
structure SessionRec where
  agentId : Nat
  lastAccess : Nat
  workingDirectory : String
  hasController : Bool
  hasSubmission : Bool
  isSubmitting : Bool
deriving Repr, DecidableEq

/-- The `agentSessions` map. -/
def Registry : Type := String → Option SessionRec

/-- `agentSessions.set`. -/
def rset (r : Registry) (k : String) (v : SessionRec) : Registry :=
  fun x => if x = k then some v else r x

/-- `agentSessions.delete`. -/
def rdel (r : Registry) (k : String) : Registry :=
  fun x => if x = k then none else r x

/-- `canReuseSession` (route.ts lines 117-120): the supplied id is
present and the stored `workingDirectory` equals the requested one. -/
def canReuseSession (r : Registry) (existingSessionId : Option String)
    (directory : String) : Bool :=
  match existingSessionId with
  | none => false
  | some id =>
    match r id with
    | none => false
    | some s => s.workingDirectory = directory

/-! ## Request pre-phase (route.ts lines 112-225)

Everything the POST handler does between session lookup and the engine
submission: reuse (with the forced-stop escalation when the session is
`isSubmitting`) or creation of a fresh session.  `freshAgent` stands for
the `new CursorAgent(...)` instance, `freshId` for `randomUUID()`, and
`cancelOk` for whether `session.currentSubmission.cancel()` succeeded —
the code swallows a failure (lines 144-152), so the parameter cannot
influence anything else. -/

structure PrePhaseResult where
  sessionId : String
  registry : Registry
  reused : Bool
  /-- Events pushed on the previous submission's sink during a forced stop. -/
  oldSinkEvents : List WireEvent
  /-- Whether the previous submission's sink was closed. -/
  oldSinkClosed : Bool
  /-- Whether `currentSubmission.cancel()` was attempted. -/
  cancelAttempted : Bool
  /-- Milliseconds waited before proceeding (the settle delay). -/
  delayMs : Nat

/-- A freshly created session entry (route.ts lines 217-222). -/
def freshSession (freshAgent now : Nat) (directory : String) : SessionRec :=
  { agentId := freshAgent
    lastAccess := now
    workingDirectory := directory
    hasController := false
    hasSubmission := false
    isSubmitting := false }

/-- The forced-stop escalation (route.ts lines 139-181), applied to a
reused session that is `isSubmitting`: attempt `cancel()` when a
submission is stored, push the interruption `error` and close the old
sink when a controller is attached, clear controller/submission/
submitting state unconditionally, and wait the settle delay. -/
def forceStop (r : Registry) (id : String) (s : SessionRec) : PrePhaseResult :=
  { sessionId := id
    registry := rset r id { s with hasController := false, hasSubmission := false,
                                   isSubmitting := false }
    reused := true
    oldSinkEvents := if s.hasController then [WireEvent.errorEv interruptedMessage] else []
    oldSinkClosed := s.hasController
    cancelAttempted := s.hasSubmission
    delayMs := FORCE_STOP_DELAY_MS }

/-- Creation of a fresh agent session under `sid` (route.ts lines
182-225). -/
def newSessionResult (r : Registry) (sid : String) (directory : String)
    (freshAgent now : Nat) : PrePhaseResult :=
  { sessionId := sid
    registry := rset r sid (freshSession freshAgent now directory)
    reused := false, oldSinkEvents := [], oldSinkClosed := false
    cancelAttempted := false, delayMs := 0 }

def requestPrePhase (r : Registry) (existingSessionId : Option String)
    (directory : String) (freshId : String) (freshAgent now : Nat)
    (_cancelOk : Bool) : PrePhaseResult :=
  match existingSessionId with
  | some id =>
    match r id with
    | some s =>
      if s.workingDirectory = directory then
        -- reuse path (route.ts lines 129-181)
        if ({ s with lastAccess := now } : SessionRec).isSubmitting then
          forceStop r id { s with lastAccess := now }
        else
          { sessionId := id, registry := rset r id { s with lastAccess := now }
            reused := true, oldSinkEvents := [], oldSinkClosed := false
            cancelAttempted := false, delayMs := 0 }
      else
        -- mismatch: create a new agent session under the supplied id
        newSessionResult r id directory freshAgent now
    | none => newSessionResult r id directory freshAgent now
  | none => newSessionResult r freshId directory freshAgent now

/-! ## Engine submission and the nuclear path (route.ts lines 289-320) -/

/-- Outcome of `agent.submit(...)`: success, a thrown error whose message
contains `"Agent busy"`, or any other thrown error. -/
inductive EngineSubmitResult where
  | ok
  | throwBusy
  | throwOther (msg : String)
deriving Repr, DecidableEq

/-- The HTTP-level response of the POST handler before/instead of a
stream. -/
inductive SubmitResponse where
  | streamStarted
  | conflict (status : Nat) (sessionCleared : Bool)
  | serverError (msg : String)
deriving Repr, DecidableEq

/-- Clear a session's transient submission state (the cleanup the outer
catch performs, route.ts lines 715-721). -/
def clearTransient (s : SessionRec) : SessionRec :=
  { s with isSubmitting := false, hasController := false, hasSubmission := false }

/-- The submit attempt: on an `"Agent busy"` error the session is deleted
and a 409 with `sessionCleared: true` is returned (route.ts lines
298-318); any other error propagates to the outer catch, which clears
the session's transient state and returns a 500. -/
def submitToEngine (r : Registry) (sessionId : String) :
    EngineSubmitResult → Registry × SubmitResponse
  | .ok => (r, .streamStarted)
  | .throwBusy => (rdel r sessionId, .conflict 409 true)
  | .throwOther msg =>
    let r' := match r sessionId with
      | some s => rset r sessionId (clearTransient s)
      | none => r
    (r', .serverError msg)

/-! ## The streaming relay (route.ts lines 322-700)

The `ReadableStream` body is modelled as explicit state: the closure
variables (`streamClosed`, `currentUserMessage`,
`currentAssistantMessage`, `totalTokens`, `updateCount`), the session
entry the callbacks mutate, the sequence of wire events enqueued on the
controller, and the sequence of task snapshots passed to
`dbOperations.updateTask`.  `Date.now()` is a tick counter `now`,
advanced once per received event. -/

structure RelayState where
  streamClosed : Bool
  sinkClosed : Bool
  emitted : List WireEvent
  dbWrites : List AgentTask
  task : Option AgentTask
  currentUserMessage : Option ChatMessage
  currentAssistantMessage : Option ChatMessage
  totalTokens : Nat
  updateCount : Nat
  now : Nat
  session : SessionRec
  /-- The fresh id used if an assistant message is created
  (`msg-${randomUUID()}`; at most one assistant message per relay). -/
  freshAssistantId : String
  /-- Whether `currentSubmission.cancel()` has been invoked during this
  relay's lifetime. -/
  cancelCalled : Bool
deriving Repr, DecidableEq

/-- The user message created at stream start (route.ts lines 342-353). -/
def mkUserMessage (id content : String) (now : Nat) : ChatMessage :=
  { id := id, role := "user", content := content, createdAt := now, isStreaming := false
    metadata := { thinking := "", toolCalls := [], summaries := [], lastUpdateTime := now } }

/-- A freshly created streaming assistant message (route.ts lines
514-527 / 537-549 / 559-571). -/
def newAssistantMessage (id thinking content : String) (now : Nat) : ChatMessage :=
  { id := id, role := "assistant", content := content, createdAt := now, isStreaming := true
    metadata := { thinking := thinking, toolCalls := [], summaries := [], lastUpdateTime := now } }

/-- The message-array rebuild inside `saveToDatabase` (route.ts lines
361-376): append the user message unless a message with its id is
already present, then upsert the assistant message by id. -/
def upsertMessages (msgs : List ChatMessage) (um cam : Option ChatMessage) :
    List ChatMessage :=
  let msgs :=
    match um with
    | some u => if msgs.any (fun m => m.id = u.id) then msgs else msgs ++ [u]
    | none => msgs
  match cam with
  | some a =>
    match msgs.findIdx? (fun m => m.id = a.id) with
    | some i => msgs.set i a
    | none => msgs ++ [a]
  | none => msgs

/-- `saveToDatabase` (route.ts lines 356-388): no-op without a task;
otherwise rebuild the message array, refresh
`tokenCount`/`lastActivityTime`, and hand the task to
`dbOperations.updateTask` (recorded on `dbWrites`). -/
def saveToDatabase (st : RelayState) : RelayState :=
  match st.task with
  | none => st
  | some t =>
    let t := { t with
      messages := upsertMessages t.messages st.currentUserMessage st.currentAssistantMessage
      tokenCount := st.totalTokens
      lastActivityTime := st.now }
    { st with task := some t, dbWrites := st.dbWrites ++ [t] }

/-- The per-event assistant-message fold (route.ts lines 512-608): how
one update transforms `currentAssistantMessage`.  Truthiness tests on
strings become comparisons against `""`.  `aid` is the fresh id used if
the assistant message is created here; `now` is the current clock. -/
def foldMessage (aid : String) (now : Nat) (cam : Option ChatMessage) :
    UpdateEvent → Option ChatMessage
  | .thinkingDelta text =>
    match cam with
    | none => some (newAssistantMessage aid text "" now)
    | some m =>
      let md := m.metadata
      let md := { md with thinking := md.thinking ++ text, lastUpdateTime := now }
      some { m with metadata := md }
  | .textDelta text =>
    match cam with
    | none => some (newAssistantMessage aid "" text now)
    | some m =>
      let md := { m.metadata with lastUpdateTime := now }
      some { m with content := m.content ++ text, metadata := md }
  | .toolCallStarted callId toolCall =>
    -- the message is created (if absent) before the callId/toolCall guard
    let m :=
      match cam with
      | none => newAssistantMessage aid "" "" now
      | some m => m
    if callId ≠ "" then
      match toolCall with
      | some info =>
        let rec0 : ToolCallRecord :=
          { tcType := info.tcType, args := info.args, result := none
            startTime := now, endTime := none }
        let md := m.metadata
        let md := { md with toolCalls := setTC md.toolCalls callId rec0,
                            lastUpdateTime := now }
        some { m with metadata := md }
      | none => some m
    else some m
  | .toolCallCompleted callId toolCall =>
    match cam with
    | some m =>
      if callId ≠ "" then
        match getTC m.metadata.toolCalls callId with
        | some existing =>
          let upd := { existing with result := toolCall.bind ToolCallInfo.result,
                                     endTime := some now }
          let md := m.metadata
          let md := { md with toolCalls := setTC md.toolCalls callId upd,
                              lastUpdateTime := now }
          some { m with metadata := md }
        | none => some m
      else some m
    | none => none
  | .summaryEv s =>
    match cam with
    | some m =>
      if s ≠ "" then
        let md := m.metadata
        let md := { md with summaries := md.summaries ++ [s], lastUpdateTime := now }
        some { m with metadata := md }
      else some m
    | none => none
  | _ => cam

/-- The token-count fold (route.ts lines 609-614): `token-delta` adds
its (truthy) token count; every other event leaves the total alone. -/
def foldTokens (tok : Nat) : UpdateEvent → Nat
  | .tokenDelta tokens => if tokens ≠ 0 then tok + tokens else tok
  | _ => tok

/-- The per-event message-builder fold (route.ts lines 511-614), run only
when a task is loaded: each branch touches only the assistant message or
the running token count. -/
def processUpdate (st : RelayState) (u : UpdateEvent) : RelayState :=
  { st with
    currentAssistantMessage := foldMessage st.freshAssistantId st.now st.currentAssistantMessage u
    totalTokens := foldTokens st.totalTokens u }

/-- The event types that force an extra checkpoint (route.ts lines
617-619). -/
def isCheckpointEvent : UpdateEvent → Bool
  | .toolCallCompleted _ _ => true
  | .summaryEv _ => true
  | _ => false

/-- `lastUpdateTime = Date.now(); updateCount++` at the top of the loop
body (route.ts lines 489-490). -/
def bumpClock (st : RelayState) : RelayState :=
  { st with now := st.now + 1, updateCount := st.updateCount + 1 }

/-- The builder-and-checkpoint block (route.ts lines 511-621), run only
when a task is loaded: fold the event into the message/token state,
then save when the count hits a multiple of 10 or the event type forces
a checkpoint. -/
def checkpointStep (st : RelayState) (u : UpdateEvent) : RelayState :=
  if st.task.isSome then
    if (processUpdate st u).updateCount % 10 = 0 ∨ isCheckpointEvent u = true then
      saveToDatabase (processUpdate st u)
    else processUpdate st u
  else st

/-- The enqueue of one update (route.ts lines 624-639): its
serialization, or the substitute error event when `JSON.stringify`
fails (`canSer u = false`).  Enqueue on an already-closed controller
throws, so nothing lands on the sink then. -/
def emitStep (canSer : UpdateEvent → Bool) (st : RelayState) (u : UpdateEvent) : RelayState :=
  if st.sinkClosed then st
  else if canSer u then { st with emitted := st.emitted ++ [WireEvent.relayed u] }
  else { st with emitted := st.emitted ++ [WireEvent.serializationError] }

/-- One iteration of the `for await` loop (route.ts lines 488-640). -/
def relayStep (canSer : UpdateEvent → Bool) (st : RelayState) (u : UpdateEvent) : RelayState :=
  emitStep canSer (checkpointStep (bumpClock st) u) u

/-- The error-state persistence inside `sendError` (route.ts lines
409-420): only when both a task and a current assistant message exist,
mark the task failed, finalize the message (substituting the error text
for empty content), and save. -/
def persistFailure (msg : String) (st : RelayState) : RelayState :=
  match st.task, st.currentAssistantMessage with
  | some t, some m =>
    let m := { m with isStreaming := false,
                      content := if m.content = "" then "Error: " ++ msg else m.content }
    saveToDatabase
      { st with task := some { t with status := .failed, error := some msg },
                currentAssistantMessage := some m }
  | _, _ => st

/-- The tail of `sendError` (route.ts lines 422-435): enqueue the error
event, close the sink, and clear the session's submission state. -/
def closeWithError (msg : String) (st : RelayState) : RelayState :=
  { st with emitted := st.emitted ++ [WireEvent.errorEv msg], sinkClosed := true,
            session := clearTransient st.session }

/-- `sendError` (route.ts lines 390-436): a no-op once `streamClosed`;
otherwise mark the stream closed, persist the failure, then enqueue the
error event, close the sink, and clear the session's submission state. -/
def sendError (msg : String) (st : RelayState) : RelayState :=
  if st.streamClosed then st
  else closeWithError msg (persistFailure msg { st with streamClosed := true })

/-- Marking the streaming assistant message complete (route.ts lines
651-653). -/
def finalizeAssistant (st : RelayState) : RelayState :=
  { st with currentAssistantMessage :=
      st.currentAssistantMessage.map (fun m => { m with isStreaming := false }) }

/-- Marking the task completed and the final save (route.ts lines
654-661). -/
def finalizeTask (st : RelayState) : RelayState :=
  match st.task with
  | some t => saveToDatabase { st with task := some { t with status := .completed } }
  | none => st

/-- The tail of the normal-completion path (route.ts lines 663-675). -/
def closeWithDone (st : RelayState) : RelayState :=
  { st with emitted := st.emitted ++ [WireEvent.doneEv], streamClosed := true,
            sinkClosed := true, session := clearTransient st.session }

/-- Normal exhaustion of the event stream (route.ts lines 642-676):
unless already closed, finalize the assistant message, mark the task
completed and checkpoint it, enqueue the terminal `done`, close the
sink, and release the session's submission state. -/
def finishNormal (st : RelayState) : RelayState :=
  if st.streamClosed then st
  else closeWithDone (finalizeTask (finalizeAssistant st))

/-- One heartbeat tick (route.ts lines 456-485), given the time since
the last observed event.  Past `KILL_THRESHOLD_MS` it cancels the
engine submission when one is stored, then runs `sendError` with the
hang message; otherwise it at most logs. -/
def heartbeatTick (timeSince : Nat) (st : RelayState) : RelayState :=
  if timeSince > KILL_THRESHOLD_MS then
    sendError hungMessage
      (if st.session.hasSubmission then { st with cancelCalled := true } else st)
  else st

/-- Whether a heartbeat tick logs the stuck warning (route.ts line 460). -/
def heartbeatWarns (timeSince : Nat) : Bool := timeSince > WARN_THRESHOLD_MS

/-- The `cancel()` callback of the `ReadableStream` (route.ts lines
690-699), fired when the client disconnects: clears the session's
submission state and nothing else. -/
def clientCancel (st : RelayState) : RelayState :=
  { st with session := clearTransient st.session }

/-! ### The relay as an operation machine -/

/-- The externally triggered transitions of a live relay. -/
inductive RelayOp where
  | engineEvent (u : UpdateEvent)
  | engineFault (msg : String)
  | heartbeat (timeSince : Nat)
  | finish
  | clientDisconnect
deriving Repr, DecidableEq

def applyOp (canSer : UpdateEvent → Bool) (st : RelayState) : RelayOp → RelayState
  | .engineEvent u => relayStep canSer st u
  | .engineFault msg => sendError msg st
  | .heartbeat t => heartbeatTick t st
  | .finish => finishNormal st
  | .clientDisconnect => clientCancel st

def applyOps (canSer : UpdateEvent → Bool) (st : RelayState) (ops : List RelayOp) : RelayState :=
  ops.foldl (applyOp canSer) st

/-- The state at the top of the stream body (route.ts lines 325-446):
controller stored on the session, closure variables initialized, the
user message created when a task is loaded, and the `session` event
already enqueued as the very first item. -/
def startState (sessionId : String) (task : Option AgentTask) (message uid aid : String)
    (sess : SessionRec) (now : Nat) : RelayState :=
  { streamClosed := false
    sinkClosed := false
    emitted := [WireEvent.sessionEv sessionId]
    dbWrites := []
    task := task
    currentUserMessage := task.map (fun _ => mkUserMessage uid message now)
    currentAssistantMessage := none
    totalTokens := (task.map AgentTask.tokenCount).getD 0
    updateCount := 0
    now := now
    session := { sess with hasController := true }
    freshAssistantId := aid
    cancelCalled := false }

/-- A fault-free run: every engine event is relayed, then the stream is
exhausted normally. -/
def runNormal (canSer : UpdateEvent → Bool) (sessionId : String) (task : Option AgentTask)
    (message uid aid : String) (sess : SessionRec) (now : Nat)
    (events : List UpdateEvent) : RelayState :=
  finishNormal (events.foldl (relayStep canSer) (startState sessionId task message uid aid sess now))

/-- Task loading (route.ts lines 229-242): `dbOperations.getTask` when a
`taskId` was supplied, `none` otherwise. -/
def loadTask (store : String → Option AgentTask) (taskId : Option String) : Option AgentTask :=
  taskId.bind store

/-- The terminal wire events: an `error` enqueued by a closing path and
the synthetic `done`.  Pass-through `relayed` events (even engine
`error` updates) and per-event serialization substitutes do not close
the stream and are not terminal. -/
def isTerminalWire : WireEvent → Bool
  | .errorEv _ => true
  | .doneEv => true
  | _ => false

/-! ## Frame lemmas -/

theorem rset_self (r : Registry) (k : String) (v : SessionRec) : rset r k v k = some v := by
  simp [rset]

theorem rdel_self (r : Registry) (k : String) : rdel r k k = none := by
  simp [rdel]

theorem saveToDatabase_emitted (st : RelayState) :
    (saveToDatabase st).emitted = st.emitted := by
  cases h : st.task <;> simp [saveToDatabase, h]

theorem saveToDatabase_streamClosed (st : RelayState) :
    (saveToDatabase st).streamClosed = st.streamClosed := by
  cases h : st.task <;> simp [saveToDatabase, h]

theorem saveToDatabase_sinkClosed (st : RelayState) :
    (saveToDatabase st).sinkClosed = st.sinkClosed := by
  cases h : st.task <;> simp [saveToDatabase, h]

theorem saveToDatabase_session (st : RelayState) :
    (saveToDatabase st).session = st.session := by
  cases h : st.task <;> simp [saveToDatabase, h]

theorem saveToDatabase_cancelCalled (st : RelayState) :
    (saveToDatabase st).cancelCalled = st.cancelCalled := by
  cases h : st.task <;> simp [saveToDatabase, h]

theorem saveToDatabase_isSome (st : RelayState) :
    (saveToDatabase st).task.isSome = st.task.isSome := by
  cases h : st.task <;> simp [saveToDatabase, h]

theorem saveToDatabase_of_none (st : RelayState) (h : st.task = none) :
    saveToDatabase st = st := by
  simp [saveToDatabase, h]

theorem saveToDatabase_dbWrites_of_isSome (st : RelayState) (h : st.task.isSome = true) :
    (saveToDatabase st).dbWrites.length = st.dbWrites.length + 1 := by
  cases ht : st.task with
  | none => rw [ht] at h; simp at h
  | some t => simp [saveToDatabase, ht]

theorem saveToDatabase_task_fields (st : RelayState) (t : AgentTask) (h : st.task = some t) :
    ∃ t', (saveToDatabase st).task = some t' ∧ t'.status = t.status ∧ t'.error = t.error := by
  refine ⟨{ t with
      messages := upsertMessages t.messages st.currentUserMessage st.currentAssistantMessage
      tokenCount := st.totalTokens
      lastActivityTime := st.now }, ?_, rfl, rfl⟩
  simp [saveToDatabase, h]

theorem processUpdate_fields (st : RelayState) (u : UpdateEvent) :
    (processUpdate st u).emitted = st.emitted ∧
    (processUpdate st u).streamClosed = st.streamClosed ∧
    (processUpdate st u).sinkClosed = st.sinkClosed ∧
    (processUpdate st u).session = st.session ∧
    (processUpdate st u).task = st.task ∧
    (processUpdate st u).dbWrites = st.dbWrites ∧
    (processUpdate st u).updateCount = st.updateCount ∧
    (processUpdate st u).cancelCalled = st.cancelCalled :=
  ⟨rfl, rfl, rfl, rfl, rfl, rfl, rfl, rfl⟩

theorem checkpointStep_frame (st : RelayState) (u : UpdateEvent) :
    (checkpointStep st u).emitted = st.emitted ∧
    (checkpointStep st u).streamClosed = st.streamClosed ∧
    (checkpointStep st u).sinkClosed = st.sinkClosed ∧
    (checkpointStep st u).session = st.session ∧
    (checkpointStep st u).task.isSome = st.task.isSome ∧
    (checkpointStep st u).cancelCalled = st.cancelCalled := by
  unfold checkpointStep
  split
  · split
    · exact ⟨saveToDatabase_emitted _, saveToDatabase_streamClosed _,
        saveToDatabase_sinkClosed _, saveToDatabase_session _,
        saveToDatabase_isSome _, saveToDatabase_cancelCalled _⟩
    · exact ⟨rfl, rfl, rfl, rfl, rfl, rfl⟩
  · exact ⟨rfl, rfl, rfl, rfl, rfl, rfl⟩

theorem checkpointStep_of_none (st : RelayState) (u : UpdateEvent) (h : st.task = none) :
    checkpointStep st u = st := by
  simp [checkpointStep, h]

theorem checkpointStep_dbWrites_of_isSome (st : RelayState) (u : UpdateEvent)
    (h : st.task.isSome = true) :
    (checkpointStep st u).dbWrites.length =
      st.dbWrites.length +
        (if st.updateCount % 10 = 0 ∨ isCheckpointEvent u = true then 1 else 0) := by
  unfold checkpointStep
  rw [if_pos h]
  have hsome : (processUpdate st u).task.isSome = true := h
  by_cases hc : st.updateCount % 10 = 0 ∨ isCheckpointEvent u = true
  · have hc' : (processUpdate st u).updateCount % 10 = 0 ∨ isCheckpointEvent u = true := hc
    rw [if_pos hc', saveToDatabase_dbWrites_of_isSome _ hsome, if_pos hc]
    rfl
  · have hc' : ¬((processUpdate st u).updateCount % 10 = 0 ∨ isCheckpointEvent u = true) := hc
    rw [if_neg hc', if_neg hc]
    rfl

theorem emitStep_frame (canSer : UpdateEvent → Bool) (st : RelayState) (u : UpdateEvent) :
    (emitStep canSer st u).streamClosed = st.streamClosed ∧
    (emitStep canSer st u).sinkClosed = st.sinkClosed ∧
    (emitStep canSer st u).session = st.session ∧
    (emitStep canSer st u).task = st.task ∧
    (emitStep canSer st u).dbWrites = st.dbWrites ∧
    (emitStep canSer st u).cancelCalled = st.cancelCalled := by
  unfold emitStep
  split
  · exact ⟨rfl, rfl, rfl, rfl, rfl, rfl⟩
  · split
    · exact ⟨rfl, rfl, rfl, rfl, rfl, rfl⟩
    · exact ⟨rfl, rfl, rfl, rfl, rfl, rfl⟩

theorem emitStep_emitted (canSer : UpdateEvent → Bool) (st : RelayState) (u : UpdateEvent) :
    ∃ tail, (emitStep canSer st u).emitted = st.emitted ++ tail ∧
      tail.countP isTerminalWire = 0 := by
  unfold emitStep
  split
  · exact ⟨[], by simp, rfl⟩
  · split
    · exact ⟨[WireEvent.relayed u], rfl, rfl⟩
    · exact ⟨[WireEvent.serializationError], rfl, rfl⟩

theorem emitStep_of_open (st : RelayState) (u : UpdateEvent) (h : st.sinkClosed = false) :
    emitStep (fun _ => true) st u = { st with emitted := st.emitted ++ [WireEvent.relayed u] } := by
  simp [emitStep, h]

theorem relayStep_streamClosed (canSer : UpdateEvent → Bool) (st : RelayState) (u : UpdateEvent) :
    (relayStep canSer st u).streamClosed = st.streamClosed := by
  unfold relayStep
  rw [(emitStep_frame canSer _ u).1, (checkpointStep_frame _ u).2.1]
  rfl

theorem relayStep_sinkClosed (canSer : UpdateEvent → Bool) (st : RelayState) (u : UpdateEvent) :
    (relayStep canSer st u).sinkClosed = st.sinkClosed := by
  unfold relayStep
  rw [(emitStep_frame canSer _ u).2.1, (checkpointStep_frame _ u).2.2.1]
  rfl

theorem relayStep_emitted (canSer : UpdateEvent → Bool) (st : RelayState) (u : UpdateEvent) :
    ∃ tail, (relayStep canSer st u).emitted = st.emitted ++ tail ∧
      tail.countP isTerminalWire = 0 := by
  unfold relayStep
  obtain ⟨tail, htail, hcount⟩ := emitStep_emitted canSer (checkpointStep (bumpClock st) u) u
  refine ⟨tail, ?_, hcount⟩
  rw [htail, (checkpointStep_frame _ u).1]
  rfl

theorem relayStep_task_none (canSer : UpdateEvent → Bool) (st : RelayState) (u : UpdateEvent)
    (h : st.task = none) :
    (relayStep canSer st u).task = none ∧ (relayStep canSer st u).dbWrites = st.dbWrites := by
  unfold relayStep
  have hb : (bumpClock st).task = none := h
  rw [checkpointStep_of_none _ _ hb]
  exact ⟨(emitStep_frame canSer _ u).2.2.2.1.trans hb,
    (emitStep_frame canSer _ u).2.2.2.2.1.trans rfl⟩

theorem relayStep_open_emit (st : RelayState) (u : UpdateEvent) (h : st.sinkClosed = false) :
    (relayStep (fun _ => true) st u).emitted = st.emitted ++ [WireEvent.relayed u] := by
  unfold relayStep
  have hs : (checkpointStep (bumpClock st) u).sinkClosed = false :=
    ((checkpointStep_frame _ u).2.2.1).trans h
  rw [emitStep_of_open _ u hs]
  show (checkpointStep (bumpClock st) u).emitted ++ _ = _
  rw [(checkpointStep_frame _ u).1]
  rfl

theorem closeWithError_fields (msg : String) (st : RelayState) :
    (closeWithError msg st).emitted = st.emitted ++ [WireEvent.errorEv msg] ∧
    (closeWithError msg st).streamClosed = st.streamClosed ∧
    (closeWithError msg st).sinkClosed = true ∧
    (closeWithError msg st).session = clearTransient st.session ∧
    (closeWithError msg st).task = st.task ∧
    (closeWithError msg st).dbWrites = st.dbWrites ∧
    (closeWithError msg st).cancelCalled = st.cancelCalled :=
  ⟨rfl, rfl, rfl, rfl, rfl, rfl, rfl⟩

theorem persistFailure_frame (msg : String) (st : RelayState) :
    (persistFailure msg st).emitted = st.emitted ∧
    (persistFailure msg st).streamClosed = st.streamClosed ∧
    (persistFailure msg st).sinkClosed = st.sinkClosed ∧
    (persistFailure msg st).session = st.session ∧
    (persistFailure msg st).cancelCalled = st.cancelCalled := by
  unfold persistFailure
  split
  · exact ⟨saveToDatabase_emitted _, saveToDatabase_streamClosed _,
      saveToDatabase_sinkClosed _, saveToDatabase_session _, saveToDatabase_cancelCalled _⟩
  · exact ⟨rfl, rfl, rfl, rfl, rfl⟩

theorem persistFailure_task_none (msg : String) (st : RelayState) (h : st.task = none) :
    persistFailure msg st = st := by
  unfold persistFailure
  split
  · simp_all
  · rfl

theorem persistFailure_cam_none (msg : String) (st : RelayState)
    (h : st.currentAssistantMessage = none) :
    persistFailure msg st = st := by
  unfold persistFailure
  split
  · simp_all
  · rfl

theorem persistFailure_checkpoint (msg : String) (st : RelayState) (t : AgentTask)
    (m : ChatMessage) (ht : st.task = some t) (hm : st.currentAssistantMessage = some m) :
    (persistFailure msg st).dbWrites.length = st.dbWrites.length + 1 ∧
    ∃ t', (persistFailure msg st).task = some t' ∧ t'.status = TaskStatus.failed ∧
      t'.error = some msg := by
  have hpf : persistFailure msg st =
      saveToDatabase { st with
        task := some { t with status := TaskStatus.failed, error := some msg },
        currentAssistantMessage := some { m with isStreaming := false, content := if m.content = "" then "Error: " ++ msg else m.content } } := by
    unfold persistFailure
    rw [ht, hm]
  rw [hpf]
  refine ⟨?_, ?_⟩
  · rw [saveToDatabase_dbWrites_of_isSome _ (by rfl)]
  · obtain ⟨t', h1, h2, h3⟩ := saveToDatabase_task_fields
      { st with
        task := some { t with status := TaskStatus.failed, error := some msg },
        currentAssistantMessage := some { m with isStreaming := false, content := if m.content = "" then "Error: " ++ msg else m.content } }
      { t with status := TaskStatus.failed, error := some msg } rfl
    exact ⟨t', h1, h2, h3⟩

theorem sendError_of_closed (msg : String) (st : RelayState) (h : st.streamClosed = true) :
    sendError msg st = st := by
  simp [sendError, h]

theorem sendError_of_open (msg : String) (st : RelayState) (h : st.streamClosed = false) :
    (sendError msg st).emitted = st.emitted ++ [WireEvent.errorEv msg] ∧
    (sendError msg st).streamClosed = true ∧
    (sendError msg st).sinkClosed = true ∧
    (sendError msg st).session = clearTransient st.session ∧
    (sendError msg st).cancelCalled = st.cancelCalled := by
  unfold sendError
  rw [if_neg (by simp [h])]
  obtain ⟨e1, e2, e3, e4, e5⟩ := persistFailure_frame msg { st with streamClosed := true }
  refine ⟨?_, ?_, ?_, ?_, ?_⟩
  · rw [(closeWithError_fields msg _).1, e1]
  · rw [(closeWithError_fields msg _).2.1, e2]
  · exact (closeWithError_fields msg _).2.2.1
  · rw [(closeWithError_fields msg _).2.2.2.1, e4]
  · rw [(closeWithError_fields msg _).2.2.2.2.2.2, e5]

theorem sendError_task_none (msg : String) (st : RelayState) (h : st.task = none) :
    (sendError msg st).task = none ∧ (sendError msg st).dbWrites = st.dbWrites := by
  by_cases hcl : st.streamClosed = true
  · rw [sendError_of_closed msg st hcl]
    exact ⟨h, rfl⟩
  · unfold sendError
    rw [if_neg hcl]
    rw [persistFailure_task_none msg _ (show ({ st with streamClosed := true } :
      RelayState).task = none from h)]
    exact ⟨h, rfl⟩

theorem sendError_no_checkpoint (msg : String) (st : RelayState)
    (h : st.currentAssistantMessage = none) :
    (sendError msg st).task = st.task ∧ (sendError msg st).dbWrites = st.dbWrites := by
  by_cases hcl : st.streamClosed = true
  · rw [sendError_of_closed msg st hcl]
    exact ⟨rfl, rfl⟩
  · unfold sendError
    rw [if_neg hcl]
    rw [persistFailure_cam_none msg _ (show ({ st with streamClosed := true } :
      RelayState).currentAssistantMessage = none from h)]
    exact ⟨rfl, rfl⟩

theorem sendError_checkpoint (msg : String) (st : RelayState) (t : AgentTask)
    (m : ChatMessage) (hcl : st.streamClosed = false) (ht : st.task = some t)
    (hm : st.currentAssistantMessage = some m) :
    (sendError msg st).dbWrites.length = st.dbWrites.length + 1 ∧
    ∃ t', (sendError msg st).task = some t' ∧ t'.status = TaskStatus.failed ∧
      t'.error = some msg := by
  unfold sendError
  rw [if_neg (by simp [hcl])]
  obtain ⟨hdb, t', h1, h2, h3⟩ := persistFailure_checkpoint msg { st with streamClosed := true }
    t m (show _ = some t from ht) (show _ = some m from hm)
  refine ⟨?_, t', ?_, h2, h3⟩
  · rw [(closeWithError_fields msg _).2.2.2.2.2.1, hdb]
  · rw [(closeWithError_fields msg _).2.2.2.2.1, h1]

theorem closeWithDone_fields (st : RelayState) :
    (closeWithDone st).emitted = st.emitted ++ [WireEvent.doneEv] ∧
    (closeWithDone st).streamClosed = true ∧
    (closeWithDone st).sinkClosed = true ∧
    (closeWithDone st).session = clearTransient st.session ∧
    (closeWithDone st).task = st.task ∧
    (closeWithDone st).dbWrites = st.dbWrites :=
  ⟨rfl, rfl, rfl, rfl, rfl, rfl⟩

theorem finalizeTask_frame (st : RelayState) :
    (finalizeTask st).emitted = st.emitted ∧
    (finalizeTask st).session = st.session ∧
    (finalizeTask st).streamClosed = st.streamClosed := by
  unfold finalizeTask
  split
  · exact ⟨saveToDatabase_emitted _, saveToDatabase_session _, saveToDatabase_streamClosed _⟩
  · exact ⟨rfl, rfl, rfl⟩

theorem finalizeTask_task_none (st : RelayState) (h : st.task = none) :
    finalizeTask st = st := by
  unfold finalizeTask
  split
  · simp_all
  · rfl

theorem finalizeTask_checkpoint (st : RelayState) (h : st.task.isSome = true) :
    (finalizeTask st).dbWrites.length = st.dbWrites.length + 1 := by
  unfold finalizeTask
  split
  · rw [saveToDatabase_dbWrites_of_isSome _ (by rfl)]
  · simp_all

theorem finishNormal_of_closed (st : RelayState) (h : st.streamClosed = true) :
    finishNormal st = st := by
  simp [finishNormal, h]

theorem finishNormal_of_open (st : RelayState) (h : st.streamClosed = false) :
    (finishNormal st).emitted = st.emitted ++ [WireEvent.doneEv] ∧
    (finishNormal st).streamClosed = true ∧
    (finishNormal st).sinkClosed = true ∧
    (finishNormal st).session = clearTransient st.session := by
  unfold finishNormal
  rw [if_neg (by simp [h])]
  obtain ⟨f1, f2, _⟩ := finalizeTask_frame (finalizeAssistant st)
  refine ⟨?_, (closeWithDone_fields _).2.1, (closeWithDone_fields _).2.2.1, ?_⟩
  · rw [(closeWithDone_fields _).1, f1]
    rfl
  · rw [(closeWithDone_fields _).2.2.2.1, f2]
    rfl

theorem finishNormal_task_none (st : RelayState) (h : st.task = none) :
    (finishNormal st).task = none ∧ (finishNormal st).dbWrites = st.dbWrites := by
  by_cases hcl : st.streamClosed = true
  · rw [finishNormal_of_closed st hcl]
    exact ⟨h, rfl⟩
  · unfold finishNormal
    rw [if_neg hcl]
    rw [finalizeTask_task_none _ (show (finalizeAssistant st).task = none from h)]
    exact ⟨h, rfl⟩

theorem finishNormal_checkpoint (st : RelayState) (hcl : st.streamClosed = false)
    (h : st.task.isSome = true) :
    (finishNormal st).dbWrites.length = st.dbWrites.length + 1 := by
  unfold finishNormal
  rw [if_neg (by simp [hcl])]
  rw [(closeWithDone_fields _).2.2.2.2.2]
  exact finalizeTask_checkpoint _ (show (finalizeAssistant st).task.isSome = true from h)

theorem heartbeatTick_of_small (timeSince : Nat) (st : RelayState)
    (h : timeSince ≤ KILL_THRESHOLD_MS) : heartbeatTick timeSince st = st := by
  unfold heartbeatTick
  rw [if_neg (by omega)]

theorem clientCancel_frame (st : RelayState) :
    (clientCancel st).session.isSubmitting = false ∧
    (clientCancel st).session.hasController = false ∧
    (clientCancel st).session.hasSubmission = false ∧
    (clientCancel st).cancelCalled = st.cancelCalled ∧
    (clientCancel st).emitted = st.emitted ∧
    (clientCancel st).dbWrites = st.dbWrites ∧
    (clientCancel st).task = st.task :=
  ⟨rfl, rfl, rfl, rfl, rfl, rfl, rfl⟩

/-! ## Fold-level lemmas -/

theorem foldl_relayStep_streamClosed (canSer : UpdateEvent → Bool) (events : List UpdateEvent) :
    ∀ st : RelayState, (events.foldl (relayStep canSer) st).streamClosed = st.streamClosed := by
  induction events with
  | nil => intro st; rfl
  | cons e rest ih =>
    intro st
    simpa [List.foldl_cons, relayStep_streamClosed] using
      (ih (relayStep canSer st e)).trans (relayStep_streamClosed canSer st e)

theorem foldl_relayStep_emitted (canSer : UpdateEvent → Bool) (events : List UpdateEvent) :
    ∀ st : RelayState, ∃ tail, (events.foldl (relayStep canSer) st).emitted = st.emitted ++ tail := by
  induction events with
  | nil => intro st; exact ⟨[], by simp⟩
  | cons e rest ih =>
    intro st
    obtain ⟨t1, h1, _⟩ := relayStep_emitted canSer st e
    obtain ⟨t2, h2⟩ := ih (relayStep canSer st e)
    exact ⟨t1 ++ t2, by rw [List.foldl_cons, h2, h1, List.append_assoc]⟩

theorem foldl_relayStep_open_emit (events : List UpdateEvent) :
    ∀ st : RelayState, st.sinkClosed = false →
      (events.foldl (relayStep (fun _ => true)) st).emitted =
        st.emitted ++ events.map WireEvent.relayed ∧
      (events.foldl (relayStep (fun _ => true)) st).sinkClosed = false := by
  induction events with
  | nil => intro st h; exact ⟨by simp, h⟩
  | cons e rest ih =>
    intro st h
    have hstep : (relayStep (fun _ => true) st e).sinkClosed = false :=
      (relayStep_sinkClosed _ st e).trans h
    obtain ⟨h1, h2⟩ := ih (relayStep (fun _ => true) st e) hstep
    refine ⟨?_, h2⟩
    rw [List.foldl_cons] at *
    rw [h1, relayStep_open_emit st e h]
    simp

theorem foldl_relayStep_task_none (canSer : UpdateEvent → Bool) (events : List UpdateEvent) :
    ∀ st : RelayState, st.task = none →
      (events.foldl (relayStep canSer) st).task = none ∧
      (events.foldl (relayStep canSer) st).dbWrites = st.dbWrites := by
  induction events with
  | nil => intro st h; exact ⟨h, rfl⟩
  | cons e rest ih =>
    intro st h
    obtain ⟨h1, h2⟩ := relayStep_task_none canSer st e h
    obtain ⟨h3, h4⟩ := ih (relayStep canSer st e) h1
    exact ⟨h3, h4.trans h2⟩

/-! ## The single-terminal invariant -/

theorem sendError_terminal (msg : String) (st : RelayState)
    (h : st.emitted.countP isTerminalWire = (if st.streamClosed then 1 else 0)) :
    (sendError msg st).emitted.countP isTerminalWire =
      (if (sendError msg st).streamClosed then 1 else 0) := by
  by_cases hcl : st.streamClosed = true
  · rw [sendError_of_closed msg st hcl]
    exact h
  · have hcl' : st.streamClosed = false := by simpa using hcl
    obtain ⟨e1, e2, _, _, _⟩ := sendError_of_open msg st hcl'
    rw [e1, List.countP_append, e2, h, hcl']
    simp [isTerminalWire]

theorem finishNormal_terminal (st : RelayState)
    (h : st.emitted.countP isTerminalWire = (if st.streamClosed then 1 else 0)) :
    (finishNormal st).emitted.countP isTerminalWire =
      (if (finishNormal st).streamClosed then 1 else 0) := by
  by_cases hcl : st.streamClosed = true
  · rw [finishNormal_of_closed st hcl]
    exact h
  · have hcl' : st.streamClosed = false := by simpa using hcl
    obtain ⟨e1, e2, _, _⟩ := finishNormal_of_open st hcl'
    rw [e1, List.countP_append, e2, h, hcl']
    simp [isTerminalWire]

theorem applyOp_terminal (canSer : UpdateEvent → Bool) (st : RelayState) (op : RelayOp)
    (h : st.emitted.countP isTerminalWire = (if st.streamClosed then 1 else 0)) :
    (applyOp canSer st op).emitted.countP isTerminalWire =
      (if (applyOp canSer st op).streamClosed then 1 else 0) := by
  cases op with
  | engineEvent u =>
    show (relayStep canSer st u).emitted.countP isTerminalWire =
      (if (relayStep canSer st u).streamClosed then 1 else 0)
    obtain ⟨tail, htail, hcount⟩ := relayStep_emitted canSer st u
    rw [htail, List.countP_append, hcount, relayStep_streamClosed, Nat.add_zero, h]
  | engineFault msg =>
    exact sendError_terminal msg st h
  | heartbeat t =>
    show (heartbeatTick t st).emitted.countP isTerminalWire =
      (if (heartbeatTick t st).streamClosed then 1 else 0)
    by_cases hk : KILL_THRESHOLD_MS < t
    · unfold heartbeatTick
      rw [if_pos hk]
      refine sendError_terminal hungMessage _ ?_
      split <;> exact h
    · rw [heartbeatTick_of_small t st (by omega)]
      exact h
  | finish =>
    exact finishNormal_terminal st h
  | clientDisconnect =>
    exact h

theorem applyOps_terminal (canSer : UpdateEvent → Bool) (ops : List RelayOp) :
    ∀ st : RelayState,
      st.emitted.countP isTerminalWire = (if st.streamClosed then 1 else 0) →
      (applyOps canSer st ops).emitted.countP isTerminalWire =
        (if (applyOps canSer st ops).streamClosed then 1 else 0) := by
  induction ops with
  | nil => intro st h; exact h
  | cons op rest ih =>
    intro st h
    exact ih (applyOp canSer st op) (applyOp_terminal canSer st op h)

theorem startState_terminal (sessionId : String) (task : Option AgentTask)
    (message uid aid : String) (sess : SessionRec) (now : Nat) :
    (startState sessionId task message uid aid sess now).emitted.countP isTerminalWire =
      (if (startState sessionId task message uid aid sess now).streamClosed then 1 else 0) :=
  rfl

theorem applyOp_task_none (canSer : UpdateEvent → Bool) (st : RelayState) (op : RelayOp)
    (h : st.task = none) :
    (applyOp canSer st op).task = none ∧ (applyOp canSer st op).dbWrites = st.dbWrites := by
  cases op with
  | engineEvent u => exact relayStep_task_none canSer st u h
  | engineFault msg => exact sendError_task_none msg st h
  | heartbeat t =>
    show (heartbeatTick t st).task = none ∧ (heartbeatTick t st).dbWrites = st.dbWrites
    by_cases hk : KILL_THRESHOLD_MS < t
    · unfold heartbeatTick
      rw [if_pos hk]
      split
      · exact sendError_task_none hungMessage _ h
      · exact sendError_task_none hungMessage _ h
    · rw [heartbeatTick_of_small t st (by omega)]
      exact ⟨h, rfl⟩
  | finish => exact finishNormal_task_none st h
  | clientDisconnect => exact ⟨h, rfl⟩

theorem applyOps_task_none (canSer : UpdateEvent → Bool) (ops : List RelayOp) :
    ∀ st : RelayState, st.task = none →
      (applyOps canSer st ops).task = none ∧ (applyOps canSer st ops).dbWrites = st.dbWrites := by
  induction ops with
  | nil => intro st h; exact ⟨h, rfl⟩
  | cons op rest ih =>
    intro st h
    obtain ⟨h1, h2⟩ := applyOp_task_none canSer st op h
    obtain ⟨h3, h4⟩ := ih (applyOp canSer st op) h1
    exact ⟨h3, h4.trans h2⟩

theorem startState_emitted (sessionId : String) (task : Option AgentTask)
    (message uid aid : String) (sess : SessionRec) (now : Nat) :
    (startState sessionId task message uid aid sess now).emitted =
      [WireEvent.sessionEv sessionId] :=
  rfl

/-! ## Concrete fixtures -/

/-- A running task with no messages yet. -/
def sampleTask : AgentTask :=
  { id := "task-1", status := TaskStatus.running, error := none, messages := []
    tokenCount := 0, lastActivityTime := 0 }

/-- A session that is mid-submission with an attached controller, bound
to `/repo-a`. -/
def busySessionA : SessionRec :=
  { agentId := 3, lastAccess := 0, workingDirectory := "/repo-a"
    hasController := true, hasSubmission := true, isSubmitting := true }

/-- A registry holding only `"S" ↦ busySessionA`. -/
def regBusyA : Registry := fun x => if x = "S" then some busySessionA else none

/-- A live relay that has sent only the `session` event: a task is
loaded but no assistant message has been created yet. -/
def stuckState : RelayState :=
  { streamClosed := false, sinkClosed := false
    emitted := [WireEvent.sessionEv "S"], dbWrites := []
    task := some sampleTask, currentUserMessage := none
    currentAssistantMessage := none, totalTokens := 0, updateCount := 0, now := 0
    session := busySessionA, freshAssistantId := "msg-a", cancelCalled := false }

/-- An assistant message in progress with no tool calls. -/
def sampleMsg : ChatMessage :=
  { id := "msg-a", role := "assistant", content := "hi", createdAt := 0, isStreaming := true
    metadata := { thinking := "", toolCalls := [], summaries := [], lastUpdateTime := 0 } }

/-- `stuckState` with an assistant message in progress. -/
def richState : RelayState :=
  { stuckState with currentAssistantMessage := some sampleMsg }

/-- A relay state whose stream has already been closed. -/
def closedState : RelayState := { stuckState with streamClosed := true }

/-- A message holding one tool-call record keyed `"c1"`. -/
def recC1 : ToolCallRecord :=
  { tcType := "shell", args := "ls", result := none, startTime := 5, endTime := none }

def msgWithCall : ChatMessage :=
  { id := "msg-b", role := "assistant", content := "", createdAt := 0, isStreaming := true
    metadata := { thinking := "", toolCalls := [("c1", recC1)], summaries := []
                  lastUpdateTime := 0 } }

/-! ## Claims -/

/-- **C2**: For every submission where the engine still reports a busy
condition after forced cleanup, the entire session is deleted from the
Registry and the caller receives a conflict (409) response carrying
`sessionCleared: true`, so the Registry no longer contains that session
id afterward. -/
theorem c2_nuclear_clears_session (r : Registry) (sessionId : String) :
    (submitToEngine r sessionId EngineSubmitResult.throwBusy).2 =
      SubmitResponse.conflict 409 true ∧
    (submitToEngine r sessionId EngineSubmitResult.throwBusy).1 sessionId = none :=
  ⟨rfl, rdel_self r sessionId⟩

/-- **C9**: When the consumer disconnects (the response stream's
`cancel` callback fires), the session's Submitting flag, controller,
and stored submission are cleared, but the engine's `cancel()` is never
invoked (and nothing is pushed or persisted), so the in-flight engine
submission keeps running after the client is gone. -/
theorem c9_client_disconnect_frame (st : RelayState) :
    (clientCancel st).session.isSubmitting = false ∧
    (clientCancel st).session.hasController = false ∧
    (clientCancel st).session.hasSubmission = false ∧
    (clientCancel st).cancelCalled = st.cancelCalled ∧
    (clientCancel st).emitted = st.emitted ∧
    (clientCancel st).dbWrites = st.dbWrites ∧
    (clientCancel st).task = st.task :=
  ⟨rfl, rfl, rfl, rfl, rfl, rfl, rfl⟩

/-- **C7**: For every `tool-call-completed` event whose `callId` has no
previously inserted record, the message builder creates no record and
does not fail (the fold is total and returns the state unchanged); a
record's `result` and `endTime` are updated if and only if a record
with that `callId` already exists. -/
theorem c7_unmatched_completion_safe (aid : String) (now : Nat) :
    (∀ (cam : Option ChatMessage) (callId : String) (tc : Option ToolCallInfo),
      (∀ m, cam = some m → getTC m.metadata.toolCalls callId = none) →
      foldMessage aid now cam (UpdateEvent.toolCallCompleted callId tc) = cam) ∧
    (∀ (m : ChatMessage) (callId : String) (tc : Option ToolCallInfo) (r : ToolCallRecord),
      callId ≠ "" → getTC m.metadata.toolCalls callId = some r →
      ∃ m', foldMessage aid now (some m) (UpdateEvent.toolCallCompleted callId tc) = some m' ∧
        getTC m'.metadata.toolCalls callId =
          some { r with result := tc.bind ToolCallInfo.result, endTime := some now }) := by
  constructor
  · intro cam callId tc hnone
    cases cam with
    | none => rfl
    | some m =>
      simp only [foldMessage]
      by_cases hc : callId = ""
      · rw [if_neg (by simp [hc])]
      · rw [if_pos hc, hnone m rfl]
  · intro m callId tc r hne hsome
    simp only [foldMessage]
    rw [if_pos hne, hsome]
    refine ⟨_, rfl, ?_⟩
    show getTC (setTC m.metadata.toolCalls callId
      { r with result := tc.bind ToolCallInfo.result, endTime := some now }) callId = _
    exact getTC_setTC_self _ _ _

/-- Witness for C7 at a concrete unmatched and a concrete matched
completion. -/
theorem c7_unmatched_completion_witness :
    foldMessage "a" 9 (some sampleMsg) (UpdateEvent.toolCallCompleted "cX" none) =
      some sampleMsg ∧
    ∃ m', foldMessage "a" 9 (some msgWithCall) (UpdateEvent.toolCallCompleted "c1" none) =
      some m' ∧
      getTC m'.metadata.toolCalls "c1" =
        some { recC1 with result := Option.bind none ToolCallInfo.result, endTime := some 9 } := by
  have h := c7_unmatched_completion_safe "a" 9
  exact ⟨h.1 (some sampleMsg) "cX" none (fun m hm => by cases hm; rfl),
    h.2 msgWithCall "c1" none recC1 (by decide) rfl⟩

/-- **C1 (counterexample)**: the claim quantifies over every request
naming a Submitting session, but a request naming the Submitting
session `"S"` (attached sink and all) with a *different*
`workingDirectory` triggers no forced stop: no error event is pushed on
the old sink, the old sink is not closed, and no settle delay is
observed — a fresh session simply replaces the entry. -/
theorem c1_counterexample_directory_mismatch :
    busySessionA.isSubmitting = true ∧ busySessionA.hasController = true ∧
    regBusyA "S" = some busySessionA ∧
    (requestPrePhase regBusyA (some "S") "/repo-b" "fresh-id" 9 42 true).oldSinkEvents = [] ∧
    (requestPrePhase regBusyA (some "S") "/repo-b" "fresh-id" 9 42 true).oldSinkClosed = false ∧
    (requestPrePhase regBusyA (some "S") "/repo-b" "fresh-id" 9 42 true).cancelAttempted = false ∧
    (requestPrePhase regBusyA (some "S") "/repo-b" "fresh-id" 9 42 true).delayMs = 0 := by
  decide

/-- **C1 (amended)**: for every request naming a session that is
currently Submitting *whose stored `workingDirectory` equals the
requested one* (so the session is reused), with a sink attached, the
controller pushes an error event through the attached sink, closes it,
clears the sink, cancel token, and Submitting state regardless of
whether the graceful cancel succeeded, and observes the fixed 100 ms
settle delay before reusing the session. -/
theorem c1_forced_stop_on_busy_reuse (r : Registry) (id directory freshId : String)
    (freshAgent now : Nat) (cancelOk : Bool) (s : SessionRec)
    (hr : r id = some s) (hdir : s.workingDirectory = directory)
    (hsub : s.isSubmitting = true) (hctrl : s.hasController = true) :
    (requestPrePhase r (some id) directory freshId freshAgent now cancelOk).oldSinkEvents =
      [WireEvent.errorEv interruptedMessage] ∧
    (requestPrePhase r (some id) directory freshId freshAgent now cancelOk).oldSinkClosed =
      true ∧
    (requestPrePhase r (some id) directory freshId freshAgent now cancelOk).delayMs =
      FORCE_STOP_DELAY_MS ∧
    FORCE_STOP_DELAY_MS = 100 ∧
    (requestPrePhase r (some id) directory freshId freshAgent now cancelOk).reused = true ∧
    (∃ s', (requestPrePhase r (some id) directory freshId freshAgent now cancelOk).registry id =
        some s' ∧ s'.hasController = false ∧ s'.hasSubmission = false ∧
        s'.isSubmitting = false) ∧
    (∀ b : Bool, requestPrePhase r (some id) directory freshId freshAgent now cancelOk =
      requestPrePhase r (some id) directory freshId freshAgent now b) := by
  have hres : requestPrePhase r (some id) directory freshId freshAgent now cancelOk =
      forceStop r id { s with lastAccess := now } := by
    unfold requestPrePhase
    simp only [hr]
    rw [if_pos hdir,
      if_pos (show ({ s with lastAccess := now } : SessionRec).isSubmitting = true from hsub)]
  refine ⟨?_, ?_, ?_, rfl, ?_, ?_, fun b => rfl⟩
  · rw [hres]
    show (if ({ s with lastAccess := now } : SessionRec).hasController
      then [WireEvent.errorEv interruptedMessage] else []) = _
    rw [if_pos (show ({ s with lastAccess := now } : SessionRec).hasController = true from hctrl)]
  · rw [hres]
    exact hctrl
  · rw [hres]
    rfl
  · rw [hres]
    rfl
  · rw [hres]
    exact ⟨_, rset_self _ _ _, rfl, rfl, rfl⟩

/-- Witness for C1 (amended) at a concrete busy session reused with the
same directory. -/
theorem c1_forced_stop_witness :
    (requestPrePhase regBusyA (some "S") "/repo-a" "fresh-id" 9 42 true).oldSinkEvents =
      [WireEvent.errorEv interruptedMessage] ∧
    (requestPrePhase regBusyA (some "S") "/repo-a" "fresh-id" 9 42 true).oldSinkClosed = true ∧
    (requestPrePhase regBusyA (some "S") "/repo-a" "fresh-id" 9 42 true).delayMs =
      FORCE_STOP_DELAY_MS ∧
    FORCE_STOP_DELAY_MS = 100 ∧
    (requestPrePhase regBusyA (some "S") "/repo-a" "fresh-id" 9 42 true).reused = true ∧
    (∃ s', (requestPrePhase regBusyA (some "S") "/repo-a" "fresh-id" 9 42 true).registry "S" =
        some s' ∧ s'.hasController = false ∧ s'.hasSubmission = false ∧
        s'.isSubmitting = false) ∧
    (∀ b : Bool, requestPrePhase regBusyA (some "S") "/repo-a" "fresh-id" 9 42 true =
      requestPrePhase regBusyA (some "S") "/repo-a" "fresh-id" 9 42 b) :=
  c1_forced_stop_on_busy_reuse regBusyA "S" "/repo-a" "fresh-id" 9 42 true busySessionA
    rfl rfl rfl rfl

/-- Relating `requestPrePhase`'s reuse decision to `canReuseSession`. -/
theorem requestPrePhase_reused (r : Registry) (existingSessionId : Option String)
    (directory freshId : String) (freshAgent now : Nat) (cancelOk : Bool) :
    (requestPrePhase r existingSessionId directory freshId freshAgent now cancelOk).reused =
      canReuseSession r existingSessionId directory := by
  unfold requestPrePhase canReuseSession
  cases existingSessionId with
  | none => rfl
  | some id =>
    cases hr : r id with
    | none => simp [hr, newSessionResult]
    | some s =>
      simp only [hr]
      by_cases hd : s.workingDirectory = directory
      · rw [if_pos hd]
        split <;> simp [hd, forceStop]
      · rw [if_neg hd]
        simp [newSessionResult, hd]

/-- **C3**: session resolution reuses an existing session only when the
supplied id exists in the Registry and its stored `workingDirectory`
exactly equals the requested directory; whenever the supplied id exists
but the directory differs, a new session (a fresh engine handle) bound
to the new directory is stored, never the old one reused. -/
theorem c3_directory_binding (r : Registry) (existingSessionId : Option String)
    (directory freshId : String) (freshAgent now : Nat) (cancelOk : Bool) :
    ((requestPrePhase r existingSessionId directory freshId freshAgent now cancelOk).reused =
        true ↔
      ∃ id s, existingSessionId = some id ∧ r id = some s ∧
        s.workingDirectory = directory) ∧
    (∀ id s, existingSessionId = some id → r id = some s → s.workingDirectory ≠ directory →
      (requestPrePhase r existingSessionId directory freshId freshAgent now cancelOk).reused =
        false ∧
      (requestPrePhase r existingSessionId directory freshId freshAgent now
          cancelOk).registry id = some (freshSession freshAgent now directory) ∧
      (freshSession freshAgent now directory).workingDirectory = directory ∧
      (freshSession freshAgent now directory).agentId = freshAgent) := by
  constructor
  · rw [requestPrePhase_reused]
    unfold canReuseSession
    cases existingSessionId with
    | none => simp
    | some id =>
      cases hr : r id with
      | none =>
        simp only [hr]
        constructor
        · intro h
          simp at h
        · rintro ⟨id', s', hid, hrs, _⟩
          cases hid
          rw [hr] at hrs
          cases hrs
      | some s =>
        simp only [hr]
        constructor
        · intro h
          exact ⟨id, s, rfl, hr, by simpa using h⟩
        · rintro ⟨id', s', hid, hrs, hdir⟩
          cases hid
          rw [hr] at hrs
          cases hrs
          simpa using hdir
  · intro id s hid hrs hdir
    cases hid
    have hres : requestPrePhase r (some id) directory freshId freshAgent now cancelOk =
        newSessionResult r id directory freshAgent now := by
      unfold requestPrePhase
      simp only [hrs]
      rw [if_neg hdir]
    rw [hres]
    exact ⟨rfl, rset_self _ _ _, rfl, rfl⟩

/-- Witness for C3 at a concrete mismatching request. -/
theorem c3_directory_binding_witness :
    (requestPrePhase regBusyA (some "S") "/repo-b" "fresh-id" 9 42 true).reused = false ∧
    (requestPrePhase regBusyA (some "S") "/repo-b" "fresh-id" 9 42 true).registry "S" =
      some (freshSession 9 42 "/repo-b") ∧
    (freshSession 9 42 "/repo-b").workingDirectory = "/repo-b" ∧
    (freshSession 9 42 "/repo-b").agentId = 9 :=
  (c3_directory_binding regBusyA (some "S") "/repo-b" "fresh-id" 9 42 true).2 "S" busySessionA
    rfl rfl (by decide)

/-- **C4**: for every relay, the first item pushed to the sink is a
`session{sessionId}` event (whether the session was reused or newly
created — the start state is independent of that), and on normal
exhaustion of the engine's event sequence a terminal `done` event is
pushed last, the sink is closed, and the session's Submitting state is
released. -/
theorem c4_relay_first_session_last_done (canSer : UpdateEvent → Bool) (sessionId : String)
    (task : Option AgentTask) (message uid aid : String) (sess : SessionRec) (now : Nat)
    (events : List UpdateEvent) :
    (runNormal canSer sessionId task message uid aid sess now events).emitted.head? =
      some (WireEvent.sessionEv sessionId) ∧
    (runNormal canSer sessionId task message uid aid sess now events).emitted.getLast? =
      some WireEvent.doneEv ∧
    (runNormal canSer sessionId task message uid aid sess now events).sinkClosed = true ∧
    (runNormal canSer sessionId task message uid aid sess now
      events).session.isSubmitting = false := by
  unfold runNormal
  have hclosed : (events.foldl (relayStep canSer)
      (startState sessionId task message uid aid sess now)).streamClosed = false :=
    (foldl_relayStep_streamClosed canSer events _).trans rfl
  obtain ⟨f1, _, f3, f4⟩ := finishNormal_of_open _ hclosed
  obtain ⟨tail, htail⟩ := foldl_relayStep_emitted canSer events
    (startState sessionId task message uid aid sess now)
  refine ⟨?_, ?_, f3, ?_⟩
  · rw [f1, htail, startState_emitted]
    simp
  · rw [f1, htail, startState_emitted]
    rw [List.getLast?_append_cons]
    rfl
  · rw [f4]
    rfl

/-- **C5 (counterexample)**: with a task loaded but no assistant message
created yet (no engine event ever arrived — exactly the
five-minutes-of-silence scenario), the heartbeat auto-kill emits the
hang `error` event and closes the stream, but the persisted task is
never marked `failed`: the store is not touched at all. -/
theorem c5_counterexample_no_status_update :
    stuckState.task = some sampleTask ∧ sampleTask.status = TaskStatus.running ∧
    stuckState.session.hasSubmission = true ∧
    (heartbeatTick (KILL_THRESHOLD_MS + 1) stuckState).emitted =
      [WireEvent.sessionEv "S", WireEvent.errorEv hungMessage] ∧
    (heartbeatTick (KILL_THRESHOLD_MS + 1) stuckState).sinkClosed = true ∧
    (heartbeatTick (KILL_THRESHOLD_MS + 1) stuckState).task.map AgentTask.status =
      some TaskStatus.running ∧
    (heartbeatTick (KILL_THRESHOLD_MS + 1) stuckState).dbWrites = [] := by
  decide

/-- **C5 (amended)**: the inactivity detector runs every 5 seconds; past
60 seconds of inactivity it logs a warning only (the state is
untouched up to 5 minutes), and past 5 minutes it cancels the engine
token when one is available, emits an `error` event describing the hang
on the sink, closes the stream, releases the session, and — provided an
assistant message is being built — marks the task `failed` with that
message. -/
theorem c5_heartbeat_behavior :
    HEARTBEAT_INTERVAL_MS = 5000 ∧
    (∀ t : Nat, WARN_THRESHOLD_MS < t → heartbeatWarns t = true) ∧
    (∀ (t : Nat) (st : RelayState), t ≤ KILL_THRESHOLD_MS → heartbeatTick t st = st) ∧
    (∀ (t : Nat) (st : RelayState), KILL_THRESHOLD_MS < t → st.streamClosed = false →
      (heartbeatTick t st).emitted = st.emitted ++ [WireEvent.errorEv hungMessage] ∧
      (heartbeatTick t st).sinkClosed = true ∧
      (st.session.hasSubmission = true → (heartbeatTick t st).cancelCalled = true) ∧
      (heartbeatTick t st).session.isSubmitting = false ∧
      (∀ tk m, st.task = some tk → st.currentAssistantMessage = some m →
        ∃ t', (heartbeatTick t st).task = some t' ∧ t'.status = TaskStatus.failed ∧
          t'.error = some hungMessage)) := by
  refine ⟨rfl, ?_, ?_, ?_⟩
  · intro t ht
    simp [heartbeatWarns, ht]
  · intro t st ht
    exact heartbeatTick_of_small t st ht
  · intro t st hk hcl
    unfold heartbeatTick
    rw [if_pos hk]
    split
    · rename_i hs
      obtain ⟨e1, _, e3, e4, e5⟩ :=
        sendError_of_open hungMessage { st with cancelCalled := true } hcl
      refine ⟨e1, e3, fun _ => e5.trans rfl, ?_, ?_⟩
      · rw [e4]
        rfl
      · intro tk m htk hm
        exact (sendError_checkpoint hungMessage { st with cancelCalled := true } tk m hcl
          (show _ = some tk from htk) (show _ = some m from hm)).2
    · rename_i hs
      obtain ⟨e1, _, e3, e4, e5⟩ := sendError_of_open hungMessage st hcl
      refine ⟨e1, e3, fun hcon => absurd hcon hs, ?_, ?_⟩
      · rw [e4]
        rfl
      · intro tk m htk hm
        exact (sendError_checkpoint hungMessage st tk m hcl htk hm).2

/-- Witness for C5 (amended): the warn-only zone at 61 s, the no-op at
exactly 5 s, and the auto-kill past 5 minutes on a concrete state. -/
theorem c5_heartbeat_witness :
    heartbeatWarns 60001 = true ∧
    heartbeatTick 5000 richState = richState ∧
    (heartbeatTick (KILL_THRESHOLD_MS + 1) richState).emitted =
      richState.emitted ++ [WireEvent.errorEv hungMessage] ∧
    (heartbeatTick (KILL_THRESHOLD_MS + 1) richState).sinkClosed = true ∧
    (∃ t', (heartbeatTick (KILL_THRESHOLD_MS + 1) richState).task = some t' ∧
      t'.status = TaskStatus.failed ∧ t'.error = some hungMessage) := by
  have h := c5_heartbeat_behavior
  have hkill := h.2.2.2 (KILL_THRESHOLD_MS + 1) richState (by decide) rfl
  exact ⟨h.2.1 60001 (by decide), h.2.2.1 5000 richState (by decide), hkill.1, hkill.2.1,
    hkill.2.2.2.2 sampleTask sampleMsg rfl rfl⟩

/-- **C6 (counterexample)**: an `error` that terminates the stream
while a task is loaded but no assistant message exists writes nothing
to the store: the stream closes with the task never checkpointed. -/
theorem c6_counterexample_error_without_checkpoint :
    stuckState.task.isSome = true ∧
    (sendError "boom" stuckState).sinkClosed = true ∧
    (sendError "boom" stuckState).emitted =
      [WireEvent.sessionEv "S", WireEvent.errorEv "boom"] ∧
    (sendError "boom" stuckState).dbWrites = [] := by
  decide

/-- **C6 (amended)**: with a task loaded, the full task is written to
the store on every 10th event and additionally on every
`tool-call-completed` or `summary` event; it is always written when a
`done` terminates the stream, and on an `error` termination it is
written provided an assistant message is being built. -/
theorem c6_checkpoint_policy :
    (∀ (canSer : UpdateEvent → Bool) (st : RelayState) (u : UpdateEvent),
      st.task.isSome = true →
      (relayStep canSer st u).dbWrites.length =
        st.dbWrites.length +
          (if (st.updateCount + 1) % 10 = 0 ∨ isCheckpointEvent u = true then 1 else 0)) ∧
    (∀ st : RelayState, st.streamClosed = false → st.task.isSome = true →
      (finishNormal st).dbWrites.length = st.dbWrites.length + 1) ∧
    (∀ (msg : String) (st : RelayState) (t : AgentTask) (m : ChatMessage),
      st.streamClosed = false → st.task = some t → st.currentAssistantMessage = some m →
      (sendError msg st).dbWrites.length = st.dbWrites.length + 1) := by
  refine ⟨?_, ?_, ?_⟩
  · intro canSer st u h
    unfold relayStep
    rw [(emitStep_frame canSer _ u).2.2.2.2.1]
    rw [checkpointStep_dbWrites_of_isSome _ u (show (bumpClock st).task.isSome = true from h)]
    rfl
  · exact fun st h1 h2 => finishNormal_checkpoint st h1 h2
  · intro msg st t m h1 h2 h3
    exact (sendError_checkpoint msg st t m h1 h2 h3).1

/-- Witness for C6 at concrete states: a non-checkpointing first event,
a checkpointing `tool-call-completed`, a `done` termination, and an
`error` termination with an assistant message in progress. -/
theorem c6_checkpoint_witness :
    (relayStep (fun _ => true) richState (UpdateEvent.textDelta "x")).dbWrites.length =
      richState.dbWrites.length +
        (if (richState.updateCount + 1) % 10 = 0 ∨
            isCheckpointEvent (UpdateEvent.textDelta "x") = true then 1 else 0) ∧
    (relayStep (fun _ => true) richState
        (UpdateEvent.toolCallCompleted "c9" none)).dbWrites.length =
      richState.dbWrites.length +
        (if (richState.updateCount + 1) % 10 = 0 ∨
            isCheckpointEvent (UpdateEvent.toolCallCompleted "c9" none) = true then 1 else 0) ∧
    (finishNormal richState).dbWrites.length = richState.dbWrites.length + 1 ∧
    (sendError "lost" richState).dbWrites.length = richState.dbWrites.length + 1 := by
  have h := c6_checkpoint_policy
  exact ⟨h.1 (fun _ => true) richState (UpdateEvent.textDelta "x") rfl,
    h.1 (fun _ => true) richState (UpdateEvent.toolCallCompleted "c9" none) rfl,
    h.2.1 richState rfl rfl,
    h.2.2 "lost" richState sampleTask sampleMsg rfl rfl rfl⟩

/-- **C8**: for every relay, at most one terminal event (`error` or
`done`) is ever enqueued on the sink over any sequence of relay
operations, and once the stream has been closed every later call to
`sendError` is a no-op that enqueues nothing further. -/
theorem c8_single_terminal_event (canSer : UpdateEvent → Bool) (sessionId : String)
    (task : Option AgentTask) (message uid aid : String) (sess : SessionRec) (now : Nat)
    (ops : List RelayOp) :
    (applyOps canSer (startState sessionId task message uid aid sess now)
      ops).emitted.countP isTerminalWire ≤ 1 ∧
    (∀ (msg : String) (st : RelayState), st.streamClosed = true → sendError msg st = st) := by
  constructor
  · have h := applyOps_terminal canSer ops (startState sessionId task message uid aid sess now)
      (startState_terminal sessionId task message uid aid sess now)
    rw [h]
    split <;> omega
  · intro msg st h
    exact sendError_of_closed msg st h

/-- Witness for C8: a concrete run with an engine error followed by a
redundant fault and a finish, and a `sendError` on an already-closed
state. -/
theorem c8_single_terminal_witness :
    (applyOps (fun _ => true) (startState "S" none "hi" "u1" "a1" busySessionA 0)
      [RelayOp.engineEvent (UpdateEvent.textDelta "x"), RelayOp.engineFault "boom",
        RelayOp.engineFault "again", RelayOp.finish]).emitted.countP isTerminalWire ≤ 1 ∧
    sendError "late" closedState = closedState := by
  have h := c8_single_terminal_event (fun _ => true) "S" none "hi" "u1" "a1" busySessionA 0
    [RelayOp.engineEvent (UpdateEvent.textDelta "x"), RelayOp.engineFault "boom",
      RelayOp.engineFault "again", RelayOp.finish]
  exact ⟨h.1, h.2 "late" closedState rfl⟩

/-- **C10**: when no `taskId` is supplied or the supplied `taskId` is
not found in the store, no task is loaded; then the external store is
never written during the submission — over any sequence of relay
operations the write log stays empty — while the event stream is still
relayed to the sink in full. -/
theorem c10_no_task_no_writes (store : String → Option AgentTask) (taskId : Option String)
    (h : ∀ tid, taskId = some tid → store tid = none)
    (sessionId message uid aid : String) (sess : SessionRec) (now : Nat) :
    loadTask store taskId = none ∧
    (∀ (canSer : UpdateEvent → Bool) (ops : List RelayOp),
      (applyOps canSer (startState sessionId (loadTask store taskId) message uid aid sess now)
        ops).dbWrites = []) ∧
    (∀ events : List UpdateEvent,
      (runNormal (fun _ => true) sessionId (loadTask store taskId) message uid aid sess now
        events).emitted =
        WireEvent.sessionEv sessionId :: (events.map WireEvent.relayed ++ [WireEvent.doneEv])) := by
  have hload : loadTask store taskId = none := by
    cases ht : taskId with
    | none => rfl
    | some tid => simpa [loadTask] using h tid ht
  refine ⟨hload, ?_, ?_⟩
  · intro canSer ops
    have hstart : (startState sessionId (loadTask store taskId) message uid aid sess
        now).task = none := hload
    obtain ⟨_, h2⟩ := applyOps_task_none canSer ops _ hstart
    exact h2.trans rfl
  · intro events
    unfold runNormal
    obtain ⟨h1, _⟩ := foldl_relayStep_open_emit events
      (startState sessionId (loadTask store taskId) message uid aid sess now) rfl
    have hclosed : (events.foldl (relayStep (fun _ => true))
        (startState sessionId (loadTask store taskId) message uid aid sess
          now)).streamClosed = false :=
      (foldl_relayStep_streamClosed _ events _).trans rfl
    obtain ⟨f1, _, _, _⟩ := finishNormal_of_open _ hclosed
    rw [f1, h1, startState_emitted]
    simp

/-- Witness for C10 with an empty store and a concrete event list. -/
theorem c10_no_task_witness :
    loadTask (fun _ => none) (some "t1") = none ∧
    (applyOps (fun _ => true)
      (startState "S" (loadTask (fun _ => none) (some "t1")) "hi" "u1" "a1" busySessionA 0)
      [RelayOp.engineEvent (UpdateEvent.textDelta "x"), RelayOp.finish]).dbWrites = [] ∧
    (runNormal (fun _ => true) "S" (loadTask (fun _ => none) (some "t1")) "hi" "u1" "a1"
        busySessionA 0 [UpdateEvent.textDelta "x"]).emitted =
      WireEvent.sessionEv "S" ::
        ([UpdateEvent.textDelta "x"].map WireEvent.relayed ++ [WireEvent.doneEv]) := by
  have h := c10_no_task_no_writes (fun _ => none) (some "t1") (fun _ _ => rfl)
    "S" "hi" "u1" "a1" busySessionA 0
  exact ⟨h.1, h.2.1 (fun _ => true) [RelayOp.engineEvent (UpdateEvent.textDelta "x"),
    RelayOp.finish], h.2.2 [UpdateEvent.textDelta "x"]⟩

end AgentRoute
